import Mathlib

/-!
Verification of the virtio RDMA userspace provider data path
(`providers/virtio/virtio_rdma.c`): buffer-pool recycling, the
send/receive marshaling path, completion-queue polling, and the
status/opcode/flag translation tables.

Machine integers are modelled as `Nat` with explicit truncation where the
C code narrows; fallible paths return `Except` or carry an `Int` errno.
The `vring_*` primitives and the ABI enumerations live in repository
headers that are not part of the analysed source tree; those are modelled
from the specification and marked as such in their doc comments.
-/

namespace VirtioRdma

/-! ### Generic (libibverbs) enumeration values

Modelled from the spec: the generic RDMA model's status/opcode/flag
enumerations (`ibv_wc_status`, `ibv_wc_opcode`, `ibv_wr_opcode`,
`ibv_send_flags`, `ibv_wc_flags`, `ibv_qp_type`) are declared in the
repository's `libibverbs` headers, which are outside the analysed source;
their values follow the stable userspace ABI. -/

def IBV_WC_SUCCESS : Nat := 0

def IBV_WC_LOC_LEN_ERR : Nat := 1

def IBV_WC_LOC_QP_OP_ERR : Nat := 2

def IBV_WC_LOC_EEC_OP_ERR : Nat := 3

def IBV_WC_LOC_PROT_ERR : Nat := 4

def IBV_WC_WR_FLUSH_ERR : Nat := 5

def IBV_WC_MW_BIND_ERR : Nat := 6

def IBV_WC_BAD_RESP_ERR : Nat := 7

def IBV_WC_LOC_ACCESS_ERR : Nat := 8

def IBV_WC_REM_INV_REQ_ERR : Nat := 9

def IBV_WC_REM_ACCESS_ERR : Nat := 10

def IBV_WC_REM_OP_ERR : Nat := 11

def IBV_WC_RETRY_EXC_ERR : Nat := 12

def IBV_WC_RNR_RETRY_EXC_ERR : Nat := 13

def IBV_WC_LOC_RDD_VIOL_ERR : Nat := 14

def IBV_WC_REM_INV_RD_REQ_ERR : Nat := 15

def IBV_WC_REM_ABORT_ERR : Nat := 16

def IBV_WC_INV_EECN_ERR : Nat := 17

def IBV_WC_INV_EEC_STATE_ERR : Nat := 18

def IBV_WC_FATAL_ERR : Nat := 19

def IBV_WC_RESP_TIMEOUT_ERR : Nat := 20

def IBV_WC_GENERAL_ERR : Nat := 21

/-- Modelled from the spec: every code of the generic completion-status
enumeration (`ibv_wc_status`, values 0 through 23). -/
def ibWcStatusCodes : List Nat := List.range 24

def IBV_WC_SEND : Nat := 0

def IBV_WC_RDMA_WRITE : Nat := 1

def IBV_WC_RDMA_READ : Nat := 2

def IBV_WC_COMP_SWAP : Nat := 3

def IBV_WC_FETCH_ADD : Nat := 4

def IBV_WC_BIND_MW : Nat := 5

def IBV_WC_LOCAL_INV : Nat := 6

def IBV_WC_TSO : Nat := 7

def IBV_WC_RECV : Nat := 128

def IBV_WC_RECV_RDMA_WITH_IMM : Nat := 129

/-- Modelled from the spec: every code of the generic completion-opcode
enumeration (`ibv_wc_opcode`), including the receive-side block at 128
and the tag-matching/driver block that follows it. -/
def ibWcOpcodeCodes : List Nat :=
  [0, 1, 2, 3, 4, 5, 6, 7, 128, 129, 130, 131, 132, 133, 134, 135, 136, 137]

def IBV_WR_RDMA_WRITE : Nat := 0

def IBV_WR_RDMA_WRITE_WITH_IMM : Nat := 1

def IBV_WR_SEND : Nat := 2

def IBV_WR_SEND_WITH_IMM : Nat := 3

def IBV_WR_RDMA_READ : Nat := 4

def IBV_WR_ATOMIC_CMP_AND_SWP : Nat := 5

def IBV_SEND_FENCE : Nat := 1

def IBV_SEND_SIGNALED : Nat := 2

def IBV_SEND_SOLICITED : Nat := 4

def IBV_SEND_INLINE : Nat := 8

def IBV_WC_GRH : Nat := 1

def IBV_WC_WITH_IMM : Nat := 2

/-- Modelled from the spec: the individual bit values of the generic
completion-flag enumeration (`ibv_wc_flags`); legitimate flag words are
bitwise-or combinations of these. -/
def ibWcFlagBits : List Nat := [1, 2, 4, 8, 16, 32, 64]

def IBV_QPT_RC : Nat := 2

def IBV_QPT_UC : Nat := 3

def IBV_QPT_UD : Nat := 4

/-! ### Wire (virtio) enumeration values

Modelled from the spec: the wire-side enumerations are declared in
`virtio_rdma_abi.h`, which is not part of the analysed source. The spec
describes them as plain enumerations paired one-to-one with the generic
codes of each mapping (§4.4); they are modelled as consecutive values
(statuses, opcodes) and single bits (flags). -/

def VIRTIO_IB_WC_SUCCESS : Nat := 0

def VIRTIO_IB_WC_LOC_LEN_ERR : Nat := 1

def VIRTIO_IB_WC_LOC_QP_OP_ERR : Nat := 2

def VIRTIO_IB_WC_LOC_PROT_ERR : Nat := 3

def VIRTIO_IB_WC_WR_FLUSH_ERR : Nat := 4

def VIRTIO_IB_WC_BAD_RESP_ERR : Nat := 5

def VIRTIO_IB_WC_LOC_ACCESS_ERR : Nat := 6

def VIRTIO_IB_WC_REM_INV_REQ_ERR : Nat := 7

def VIRTIO_IB_WC_REM_ACCESS_ERR : Nat := 8

def VIRTIO_IB_WC_REM_OP_ERR : Nat := 9

def VIRTIO_IB_WC_RETRY_EXC_ERR : Nat := 10

def VIRTIO_IB_WC_RNR_RETRY_EXC_ERR : Nat := 11

def VIRTIO_IB_WC_REM_ABORT_ERR : Nat := 12

def VIRTIO_IB_WC_FATAL_ERR : Nat := 13

def VIRTIO_IB_WC_RESP_TIMEOUT_ERR : Nat := 14

def VIRTIO_IB_WC_GENERAL_ERR : Nat := 15

/-- Wire completion-status codes handled by `to_ib_status`. -/
def virtioWcStatusCodes : List Nat :=
  [VIRTIO_IB_WC_SUCCESS, VIRTIO_IB_WC_LOC_LEN_ERR, VIRTIO_IB_WC_LOC_QP_OP_ERR,
   VIRTIO_IB_WC_LOC_PROT_ERR, VIRTIO_IB_WC_WR_FLUSH_ERR, VIRTIO_IB_WC_BAD_RESP_ERR,
   VIRTIO_IB_WC_LOC_ACCESS_ERR, VIRTIO_IB_WC_REM_INV_REQ_ERR,
   VIRTIO_IB_WC_REM_ACCESS_ERR, VIRTIO_IB_WC_REM_OP_ERR,
   VIRTIO_IB_WC_RETRY_EXC_ERR, VIRTIO_IB_WC_RNR_RETRY_EXC_ERR,
   VIRTIO_IB_WC_REM_ABORT_ERR, VIRTIO_IB_WC_FATAL_ERR,
   VIRTIO_IB_WC_RESP_TIMEOUT_ERR, VIRTIO_IB_WC_GENERAL_ERR]

def VIRTIO_IB_WC_SEND : Nat := 0

def VIRTIO_IB_WC_RDMA_WRITE : Nat := 1

def VIRTIO_IB_WC_RDMA_READ : Nat := 2

def VIRTIO_IB_WC_RECV : Nat := 3

def VIRTIO_IB_WC_RECV_RDMA_WITH_IMM : Nat := 4

/-- Wire completion-opcode codes handled by `to_ib_wc_opcode`. -/
def virtioWcOpcodeCodes : List Nat :=
  [VIRTIO_IB_WC_SEND, VIRTIO_IB_WC_RDMA_WRITE, VIRTIO_IB_WC_RDMA_READ,
   VIRTIO_IB_WC_RECV, VIRTIO_IB_WC_RECV_RDMA_WITH_IMM]

def VIRTIO_IB_WR_RDMA_WRITE : Nat := 0

def VIRTIO_IB_WR_RDMA_WRITE_WITH_IMM : Nat := 1

def VIRTIO_IB_WR_SEND : Nat := 2

def VIRTIO_IB_WR_SEND_WITH_IMM : Nat := 3

def VIRTIO_IB_WR_RDMA_READ : Nat := 4

/-- Wire work-request opcode codes of the target enumeration of
`to_virtio_wr_opcode`. -/
def virtioWrOpcodeCodes : List Nat :=
  [VIRTIO_IB_WR_RDMA_WRITE, VIRTIO_IB_WR_RDMA_WRITE_WITH_IMM,
   VIRTIO_IB_WR_SEND, VIRTIO_IB_WR_SEND_WITH_IMM, VIRTIO_IB_WR_RDMA_READ]

def VIRTIO_IB_SEND_FENCE : Nat := 1

def VIRTIO_IB_SEND_SIGNALED : Nat := 2

def VIRTIO_IB_SEND_SOLICITED : Nat := 4

def VIRTIO_IB_SEND_INLINE : Nat := 8

/-- Wire send-flag bits of the target enumeration of
`to_virtio_send_flags`; legitimate wire flag words are bitwise-or
combinations of these. -/
def virtioSendFlagBits : List Nat :=
  [VIRTIO_IB_SEND_FENCE, VIRTIO_IB_SEND_SIGNALED,
   VIRTIO_IB_SEND_SOLICITED, VIRTIO_IB_SEND_INLINE]

def VIRTIO_IB_WC_GRH : Nat := 1

def VIRTIO_IB_WC_WITH_IMM : Nat := 2

/-- Wire completion-flag codes handled by `to_ib_wc_flags`. -/
def virtioWcFlagCodes : List Nat := [VIRTIO_IB_WC_GRH, VIRTIO_IB_WC_WITH_IMM]

/-- Sentinel produced by every translation function on unmapped input:
the C `return -1` narrowed to the `uint8_t` return type. -/
def invalidSentinel : Nat := 255

/-! ### Translation functions (from `virtio_rdma.c`) -/

/-- Wire completion status to generic status (`to_ib_status`); the C
switch falls through to `return -1`, narrowed to `uint8_t` 255. -/
def to_ib_status (status : Nat) : Nat :=
  if status = VIRTIO_IB_WC_SUCCESS then IBV_WC_SUCCESS
  else if status = VIRTIO_IB_WC_LOC_LEN_ERR then IBV_WC_LOC_LEN_ERR
  else if status = VIRTIO_IB_WC_LOC_QP_OP_ERR then IBV_WC_LOC_QP_OP_ERR
  else if status = VIRTIO_IB_WC_LOC_PROT_ERR then IBV_WC_LOC_PROT_ERR
  else if status = VIRTIO_IB_WC_WR_FLUSH_ERR then IBV_WC_WR_FLUSH_ERR
  else if status = VIRTIO_IB_WC_BAD_RESP_ERR then IBV_WC_BAD_RESP_ERR
  else if status = VIRTIO_IB_WC_LOC_ACCESS_ERR then IBV_WC_LOC_ACCESS_ERR
  else if status = VIRTIO_IB_WC_REM_INV_REQ_ERR then IBV_WC_REM_INV_REQ_ERR
  else if status = VIRTIO_IB_WC_REM_ACCESS_ERR then IBV_WC_REM_ACCESS_ERR
  else if status = VIRTIO_IB_WC_REM_OP_ERR then IBV_WC_REM_OP_ERR
  else if status = VIRTIO_IB_WC_RETRY_EXC_ERR then IBV_WC_RETRY_EXC_ERR
  else if status = VIRTIO_IB_WC_RNR_RETRY_EXC_ERR then IBV_WC_RNR_RETRY_EXC_ERR
  else if status = VIRTIO_IB_WC_REM_ABORT_ERR then IBV_WC_REM_ABORT_ERR
  else if status = VIRTIO_IB_WC_FATAL_ERR then IBV_WC_FATAL_ERR
  else if status = VIRTIO_IB_WC_RESP_TIMEOUT_ERR then IBV_WC_RESP_TIMEOUT_ERR
  else if status = VIRTIO_IB_WC_GENERAL_ERR then IBV_WC_GENERAL_ERR
  else invalidSentinel

/-- Wire completion opcode to generic completion opcode
(`to_ib_wc_opcode`). -/
def to_ib_wc_opcode (opcode : Nat) : Nat :=
  if opcode = VIRTIO_IB_WC_SEND then IBV_WC_SEND
  else if opcode = VIRTIO_IB_WC_RDMA_WRITE then IBV_WC_RDMA_WRITE
  else if opcode = VIRTIO_IB_WC_RDMA_READ then IBV_WC_RDMA_READ
  else if opcode = VIRTIO_IB_WC_RECV then IBV_WC_RECV
  else if opcode = VIRTIO_IB_WC_RECV_RDMA_WITH_IMM then IBV_WC_RECV_RDMA_WITH_IMM
  else invalidSentinel

/-- Generic work-request opcode to wire opcode (`to_virtio_wr_opcode`). -/
def to_virtio_wr_opcode (opcode : Nat) : Nat :=
  if opcode = IBV_WR_RDMA_WRITE then VIRTIO_IB_WR_RDMA_WRITE
  else if opcode = IBV_WR_RDMA_WRITE_WITH_IMM then VIRTIO_IB_WR_RDMA_WRITE_WITH_IMM
  else if opcode = IBV_WR_SEND then VIRTIO_IB_WR_SEND
  else if opcode = IBV_WR_SEND_WITH_IMM then VIRTIO_IB_WR_SEND_WITH_IMM
  else if opcode = IBV_WR_RDMA_READ then VIRTIO_IB_WR_RDMA_READ
  else invalidSentinel

/-- Wire completion flags to generic completion flags (`to_ib_wc_flags`);
the C switch is on the whole flag word, so any combination of bits falls
through to the sentinel. -/
def to_ib_wc_flags (flags : Nat) : Nat :=
  if flags = VIRTIO_IB_WC_GRH then IBV_WC_GRH
  else if flags = VIRTIO_IB_WC_WITH_IMM then IBV_WC_WITH_IMM
  else invalidSentinel

/-- Generic send flags to wire send flags (`to_virtio_send_flags`); the C
switch is on the whole flag word. -/
def to_virtio_send_flags (flags : Nat) : Nat :=
  if flags = IBV_SEND_FENCE then VIRTIO_IB_SEND_FENCE
  else if flags = IBV_SEND_SIGNALED then VIRTIO_IB_SEND_SIGNALED
  else if flags = IBV_SEND_SOLICITED then VIRTIO_IB_SEND_SOLICITED
  else if flags = IBV_SEND_INLINE then VIRTIO_IB_SEND_INLINE
  else invalidSentinel

/-- Generic inputs mapped by `to_virtio_wr_opcode`: the supported generic
work-request opcodes. -/
def supportedWrOpcodes : List Nat :=
  [IBV_WR_RDMA_WRITE, IBV_WR_RDMA_WRITE_WITH_IMM, IBV_WR_SEND,
   IBV_WR_SEND_WITH_IMM, IBV_WR_RDMA_READ]

/-- Generic inputs mapped by `to_virtio_send_flags`: the supported generic
send flags. -/
def supportedSendFlags : List Nat :=
  [IBV_SEND_FENCE, IBV_SEND_SIGNALED, IBV_SEND_SOLICITED, IBV_SEND_INLINE]

/-- Generic completion statuses the component supports (the image of
`to_ib_status` on its mapped cases). -/
def supportedIbStatuses : List Nat :=
  [IBV_WC_SUCCESS, IBV_WC_LOC_LEN_ERR, IBV_WC_LOC_QP_OP_ERR, IBV_WC_LOC_PROT_ERR,
   IBV_WC_WR_FLUSH_ERR, IBV_WC_BAD_RESP_ERR, IBV_WC_LOC_ACCESS_ERR,
   IBV_WC_REM_INV_REQ_ERR, IBV_WC_REM_ACCESS_ERR, IBV_WC_REM_OP_ERR,
   IBV_WC_RETRY_EXC_ERR, IBV_WC_RNR_RETRY_EXC_ERR, IBV_WC_REM_ABORT_ERR,
   IBV_WC_FATAL_ERR, IBV_WC_RESP_TIMEOUT_ERR, IBV_WC_GENERAL_ERR]

/-- Modelled from the spec: the generic→wire direction of the
`wire-status ↔ generic-status` bidirectional mapping (§4.4); only the
wire→generic direction (`to_ib_status`) is in the analysed source. -/
def to_virtio_status (status : Nat) : Nat :=
  if status = IBV_WC_SUCCESS then VIRTIO_IB_WC_SUCCESS
  else if status = IBV_WC_LOC_LEN_ERR then VIRTIO_IB_WC_LOC_LEN_ERR
  else if status = IBV_WC_LOC_QP_OP_ERR then VIRTIO_IB_WC_LOC_QP_OP_ERR
  else if status = IBV_WC_LOC_PROT_ERR then VIRTIO_IB_WC_LOC_PROT_ERR
  else if status = IBV_WC_WR_FLUSH_ERR then VIRTIO_IB_WC_WR_FLUSH_ERR
  else if status = IBV_WC_BAD_RESP_ERR then VIRTIO_IB_WC_BAD_RESP_ERR
  else if status = IBV_WC_LOC_ACCESS_ERR then VIRTIO_IB_WC_LOC_ACCESS_ERR
  else if status = IBV_WC_REM_INV_REQ_ERR then VIRTIO_IB_WC_REM_INV_REQ_ERR
  else if status = IBV_WC_REM_ACCESS_ERR then VIRTIO_IB_WC_REM_ACCESS_ERR
  else if status = IBV_WC_REM_OP_ERR then VIRTIO_IB_WC_REM_OP_ERR
  else if status = IBV_WC_RETRY_EXC_ERR then VIRTIO_IB_WC_RETRY_EXC_ERR
  else if status = IBV_WC_RNR_RETRY_EXC_ERR then VIRTIO_IB_WC_RNR_RETRY_EXC_ERR
  else if status = IBV_WC_REM_ABORT_ERR then VIRTIO_IB_WC_REM_ABORT_ERR
  else if status = IBV_WC_FATAL_ERR then VIRTIO_IB_WC_FATAL_ERR
  else if status = IBV_WC_RESP_TIMEOUT_ERR then VIRTIO_IB_WC_RESP_TIMEOUT_ERR
  else if status = IBV_WC_GENERAL_ERR then VIRTIO_IB_WC_GENERAL_ERR
  else invalidSentinel

/-- Modelled from the spec: the wire→generic direction of the
`generic-work-request-opcode → wire-opcode` mapping, performed by the
backend device; only the generic→wire direction is in the analysed
source. -/
def from_virtio_wr_opcode (opcode : Nat) : Nat :=
  if opcode = VIRTIO_IB_WR_RDMA_WRITE then IBV_WR_RDMA_WRITE
  else if opcode = VIRTIO_IB_WR_RDMA_WRITE_WITH_IMM then IBV_WR_RDMA_WRITE_WITH_IMM
  else if opcode = VIRTIO_IB_WR_SEND then IBV_WR_SEND
  else if opcode = VIRTIO_IB_WR_SEND_WITH_IMM then IBV_WR_SEND_WITH_IMM
  else if opcode = VIRTIO_IB_WR_RDMA_READ then IBV_WR_RDMA_READ
  else invalidSentinel

/-- Modelled from the spec: the wire→generic direction of the
`generic-send-flag → wire-flag` mapping, performed by the backend
device; only the generic→wire direction is in the analysed source. -/
def from_virtio_send_flags (flags : Nat) : Nat :=
  if flags = VIRTIO_IB_SEND_FENCE then IBV_SEND_FENCE
  else if flags = VIRTIO_IB_SEND_SIGNALED then IBV_SEND_SIGNALED
  else if flags = VIRTIO_IB_SEND_SOLICITED then IBV_SEND_SOLICITED
  else if flags = VIRTIO_IB_SEND_INLINE then IBV_SEND_INLINE
  else invalidSentinel

/-! ### Wire record and request types -/

/-- Scatter-gather entry (`struct ibv_sge` / `struct virtio_rdma_sge`):
address, byte length, key of one memory fragment. -/
structure Sge where
  addr : Nat
  length : Nat
  lkey : Nat
deriving DecidableEq

/-- Modelled from the spec: `sizeof(struct virtio_rdma_sge)` — the wire
scatter-gather descriptor is the (address, length, key) triple; the ABI
header holding the struct is outside the analysed source. The exact byte
count is fixed but irrelevant to the claims; what matters is that it is
positive and identical for every descriptor. -/
def sge_size : Nat := 16

/-- Modelled from the spec: `sizeof(struct virtio_rdma_sq_req)` — the
fixed wire header of a send record. -/
def sq_req_size : Nat := 96

/-- Modelled from the spec: `sizeof(struct virtio_rdma_rq_req)` — the
fixed wire header of a receive record. -/
def rq_req_size : Nat := 16

/-- Modelled from the spec: `sizeof(struct virtio_rdma_cq_req)` — the
fixed size of a wire completion record. -/
def cq_req_size : Nat := 48

/-- Send work request (`struct ibv_send_wr`, one node of the batch list).
The C union `wr.ud` / `wr.rdma` is modelled as separate always-present
fields; the address-handle pointer is modelled by its handle number
(`to_vah(ah)->ah_num`). -/
structure SendWR where
  wr_id : Nat
  opcode : Nat
  send_flags : Nat
  imm_data : Nat
  num_sge : Nat
  sg_list : List Sge
  ud_remote_qpn : Nat
  ud_remote_qkey : Nat
  ud_ah : Nat
  rdma_remote_addr : Nat
  rdma_rkey : Nat
deriving DecidableEq

/-- Receive work request (`struct ibv_recv_wr`). -/
structure RecvWR where
  wr_id : Nat
  num_sge : Nat
  sg_list : List Sge
deriving DecidableEq

/-- Wire send record (`struct virtio_rdma_sq_req`): fixed header fields
plus the trailing region, which holds either inline payload bytes or the
copied scatter-gather descriptor array. -/
structure SqReq where
  num_sge : Nat
  send_flags : Nat
  opcode : Nat
  wr_id : Nat
  imm_data : Nat
  ud_remote_qpn : Nat
  ud_remote_qkey : Nat
  ud_ah : Nat
  rdma_remote_addr : Nat
  rdma_rkey : Nat
  inline_len : Nat
  inline_data : List Nat
  sg_list : List Sge
deriving DecidableEq

/-- Zero-initialised send record (slot contents after `calloc`/mapping). -/
def sqReqZero : SqReq :=
  ⟨0, 0, 0, 0, 0, 0, 0, 0, 0, 0, 0, [], []⟩

/-- Wire receive record (`struct virtio_rdma_rq_req`). -/
structure RqReq where
  wr_id : Nat
  num_sge : Nat
  sg_list : List Sge
deriving DecidableEq

def rqReqZero : RqReq := ⟨0, 0, []⟩

/-- Wire completion record (`struct virtio_rdma_cq_req`), all fields in
wire encoding. -/
structure CqReq where
  wr_id : Nat
  status : Nat
  opcode : Nat
  vendor_err : Nat
  byte_len : Nat
  imm_data : Nat
  src_qp : Nat
  wc_flags : Nat
deriving DecidableEq

def cqReqZero : CqReq := ⟨0, 0, 0, 0, 0, 0, 0, 0⟩

/-- Generic completion tuple (`struct ibv_wc`) as filled by
`virtio_rdma_poll_cq`. -/
structure Wc where
  wr_id : Nat
  status : Nat
  opcode : Nat
  vendor_err : Nat
  byte_len : Nat
  imm_data : Nat
  src_qp : Nat
  wc_flags : Nat
  pkey_index : Nat
deriving DecidableEq

/-! ### Shared ring transport and buffer pool

Modelled from the spec: the `vring_*` primitives (`vring_init_pool`,
`vring_flist_pop`, `vring_flist_push`, `vring_get_one`, `vring_add_one`,
`vring_notify`) live in the repository's `virtio.h`, outside the analysed
source. Following §4.1, the pool is an index-addressed slot array plus an
explicit free-index queue; the main ring is split into the
produced-but-unconsumed part (`availRing`) and the backend-completed part
(`usedList`, consumed FIFO by `vring_get_one`). Each published descriptor
records its slot index, the slot contents at publish time, and the
descriptor length. Notifications are counted per mechanism. -/
structure VRingPool (α : Type) where
  depth : Nat
  entrySize : Nat
  freeList : List Nat
  availRing : List (Nat × α × Nat)
  usedList : List (Nat × α × Nat)
  table : Nat → α
  hasDoorbell : Bool
  doorbellWrites : Nat
  slowDoorbells : Nat

namespace VRingPool

variable {α : Type}

/-- Modelled from the spec: `vring_flist_pop` — O(1) acquire of a free
slot index from the free-list ring. -/
def flistPop (p : VRingPool α) : Option (Nat × VRingPool α) :=
  match p.freeList with
  | [] => none
  | i :: rest => some (i, { p with freeList := rest })

/-- Modelled from the spec: `vring_flist_push` — O(1) release of a slot
index back to the free-list ring. -/
def flistPush (p : VRingPool α) (i : Nat) : VRingPool α :=
  { p with freeList := p.freeList ++ [i] }

/-- Modelled from the spec: `vring_get_one` — non-blocking consumption of
the next backend-completed descriptor, or none if the used ring is
empty. The backend's writes to the slot become visible to the consumer. -/
def getOne (p : VRingPool α) : Option ((Nat × α × Nat) × VRingPool α) :=
  match p.usedList with
  | [] => none
  | e :: rest =>
    some (e, { p with usedList := rest,
                      table := fun j => if j = e.1 then e.2.1 else p.table j })

/-- Modelled from the spec: `vring_add_one` — writes the slot contents
and publishes its descriptor (index, length) by advancing the producer
index. -/
def addOne (p : VRingPool α) (i : Nat) (content : α) (len : Nat) : VRingPool α :=
  { p with availRing := p.availRing ++ [(i, content, len)],
           table := fun j => if j = i then content else p.table j }

/-- Modelled from the spec: `vring_notify` — doorbell-word write. -/
def notify (p : VRingPool α) : VRingPool α :=
  { p with doorbellWrites := p.doorbellWrites + 1 }

/-- Modelled from the spec: `slow_doorbell` — the synchronous zero-length
command used when no doorbell word was negotiated. -/
def slowDoorbell (p : VRingPool α) : VRingPool α :=
  { p with slowDoorbells := p.slowDoorbells + 1 }

/-- Helper for the reclaim loop: repeatedly `vring_get_one` +
`vring_flist_push` until the used ring is empty. -/
def drainLoop (free : List Nat) (table : Nat → α) :
    List (Nat × α × Nat) → List Nat × (Nat → α)
  | [] => (free, table)
  | e :: rest =>
    drainLoop (free ++ [e.1]) (fun j => if j = e.1 then e.2.1 else table j) rest

/-- The `while ((buf_entry = vring_get_one(..)) != NULL) vring_flist_push(..)`
reclaim loop at the head of both post paths. -/
def drain (p : VRingPool α) : VRingPool α :=
  let r := drainLoop p.freeList p.table p.usedList
  { p with freeList := r.1, table := r.2, usedList := [] }

/-- Modelled from the spec: `vring_init_pool` — carves `depth` fixed-size
slots, builds the index→slot lookup and seeds the free-list ring with all
indices. -/
def init (depth entrySize : Nat) (zero : α) (hasDb : Bool) : VRingPool α :=
  { depth := depth, entrySize := entrySize, freeList := List.range depth,
    availRing := [], usedList := [], table := fun _ => zero,
    hasDoorbell := hasDb, doorbellWrites := 0, slowDoorbells := 0 }

/-- Number of entries currently owned by the free list. -/
def freeCount (p : VRingPool α) : Nat := p.freeList.length

/-- Number of entries currently owned by the ring/backend (published and
not yet recycled). -/
def postedCount (p : VRingPool α) : Nat := p.availRing.length + p.usedList.length

/-- Entries accounted for by the free list plus the ring; a data-path
operation returns with the consumer holding none, so this must equal the
negotiated depth. -/
def accounted (p : VRingPool α) : Nat := p.freeCount + p.postedCount

/-- Total number of notifications issued so far, over both mechanisms. -/
def notifyCount (p : VRingPool α) : Nat := p.doorbellWrites + p.slowDoorbells

end VRingPool

/-! ### errno values (from `errno.h`, standard) -/

def ENOMEM : Int := 12

def EINVAL : Int := 22

def EOPNOTSUPP : Int := 95

/-! ### Queue pair data path (`virtio_rdma_post_send` / `virtio_rdma_post_recv`) -/

/-- Bytes of one scatter-gather fragment, read from application memory
(`memcpy(p, sge->addr, sge->length)`); `mem` is the byte at each
address. -/
def sgeBytes (mem : Nat → Nat) (s : Sge) : List Nat :=
  (List.range s.length).map fun i => mem (s.addr + i)

/-- The loop of `copy_inline_data_to_wqe`: copies each of the first
`wr->num_sge` fragments contiguously at the advancing write pointer and
accumulates `req->inline_len += sge->length` (a `u32`, hence the
truncation). The inline region's contents are the bytes written. -/
def copy_inline_data_to_wqe (mem : Nat → Nat) (req : SqReq) (wr : SendWR) : SqReq :=
  let r := (wr.sg_list.take wr.num_sge).foldl
    (fun (acc : List Nat × Nat) s =>
      (acc.1 ++ sgeBytes mem s, (acc.2 + s.length) % 4294967296))
    ([], req.inline_len)
  { req with inline_data := r.1, inline_len := r.2 }

/-- Header construction of `virtio_rdma_post_send` (lines 564–568): the
fields written into the slot before the transport switch; all other slot
contents are untouched. -/
def buildSqHeader (old : SqReq) (wr : SendWR) : SqReq :=
  { old with num_sge := wr.num_sge,
             send_flags := to_virtio_send_flags wr.send_flags,
             opcode := to_virtio_wr_opcode wr.opcode,
             wr_id := wr.wr_id,
             imm_data := wr.imm_data }

/-- The `switch (ibqp->qp_type)` of `virtio_rdma_post_send` (lines
570–595): UD writes the datagram addressing triple for every opcode; RC
writes remote address and key for the RDMA opcodes, nothing for the send
opcodes, and rejects any other opcode with `-EOPNOTSUPP`; any other
transport is rejected with `-EINVAL`. -/
def applySqAddressing (qp_type : Nat) (req : SqReq) (wr : SendWR) : Except Int SqReq :=
  if qp_type = IBV_QPT_UD then
    Except.ok { req with ud_remote_qpn := wr.ud_remote_qpn,
                         ud_remote_qkey := wr.ud_remote_qkey,
                         ud_ah := wr.ud_ah }
  else if qp_type = IBV_QPT_RC then
    if wr.opcode = IBV_WR_RDMA_READ ∨ wr.opcode = IBV_WR_RDMA_WRITE ∨
       wr.opcode = IBV_WR_RDMA_WRITE_WITH_IMM then
      Except.ok { req with rdma_remote_addr := wr.rdma_remote_addr,
                           rdma_rkey := wr.rdma_rkey }
    else if wr.opcode = IBV_WR_SEND ∨ wr.opcode = IBV_WR_SEND_WITH_IMM then
      Except.ok req
    else
      Except.error (-EOPNOTSUPP)
  else
    Except.error (-EINVAL)

/-- Payload marshaling of `virtio_rdma_post_send` (lines 597–602): with
the inline flag, `inline_len` is zeroed, `sgl_len` is zeroed and the
fragments are copied inline; otherwise the first `num_sge` descriptors
are copied verbatim. Returns the record and the trailing `sgl_len`. -/
def applySqPayload (mem : Nat → Nat) (req : SqReq) (wr : SendWR) : SqReq × Nat :=
  if wr.send_flags &&& IBV_SEND_INLINE ≠ 0 then
    (copy_inline_data_to_wqe mem { req with inline_len := 0 } wr, 0)
  else
    ({ req with sg_list := wr.sg_list.take wr.num_sge }, sge_size * wr.num_sge)

/-- The `while (wr)` loop of `virtio_rdma_post_send`: reclaim used
descriptors, pop a free slot (`-ENOMEM` if none), build header,
addressing, payload, publish with length `sizeof(*req) + sgl_len`, and
continue with `wr->next`. Returns the pool, `rc`, and the unprocessed
suffix of the batch (where the C `wr` pointer stopped). -/
def postSendLoop (mem : Nat → Nat) (qp_type : Nat) :
    VRingPool SqReq → List SendWR → VRingPool SqReq × Int × List SendWR
  | p, [] => (p, 0, [])
  | p, wr :: rest =>
    let p1 := p.drain
    match p1.flistPop with
    | none => (p1, -ENOMEM, wr :: rest)
    | some (idx, p2) =>
      let req0 := buildSqHeader (p2.table idx) wr
      match applySqAddressing qp_type req0 wr with
      | Except.error rc => (p2, rc, wr :: rest)
      | Except.ok req1 =>
        let pay := applySqPayload mem req1 wr
        let p3 := p2.addOne idx pay.1 (sq_req_size + pay.2)
        postSendLoop mem qp_type p3 rest

/-- `virtio_rdma_post_send` under the send lock: run the batch loop; on
fall-through (`rc == 0`) ring the negotiated doorbell or issue the slow
doorbell, then `*bad_wr = wr` (always written: `none` would mean the
out-parameter was left untouched, which never happens here). -/
def virtio_rdma_post_send (mem : Nat → Nat) (qp_type : Nat)
    (p : VRingPool SqReq) (wrs : List SendWR) :
    VRingPool SqReq × Int × Option (List SendWR) :=
  match postSendLoop mem qp_type p wrs with
  | (p', rc, rem) =>
    if rc = 0 then
      (if p'.hasDoorbell then p'.notify else p'.slowDoorbell, rc, some rem)
    else
      (p', rc, some rem)

/-- Record construction of `virtio_rdma_post_recv` (lines 644–650):
id and the first `num_sge` descriptors, nothing else. -/
def buildRqReq (old : RqReq) (wr : RecvWR) : RqReq :=
  { old with wr_id := wr.wr_id, num_sge := wr.num_sge,
             sg_list := wr.sg_list.take wr.num_sge }

/-- The `while (wr)` loop of `virtio_rdma_post_recv`. -/
def postRecvLoop : VRingPool RqReq → List RecvWR → VRingPool RqReq × Int × List RecvWR
  | p, [] => (p, 0, [])
  | p, wr :: rest =>
    let p1 := p.drain
    match p1.flistPop with
    | none => (p1, -ENOMEM, wr :: rest)
    | some (idx, p2) =>
      let req := buildRqReq (p2.table idx) wr
      let p3 := p2.addOne idx req (rq_req_size + sge_size * wr.num_sge)
      postRecvLoop p3 rest

/-- `virtio_rdma_post_recv` under the receive lock: run the batch loop;
on fall-through ring the doorbell once; `*bad_wr` is written only on the
exhaustion path (`none` models the out-parameter left untouched). -/
def virtio_rdma_post_recv (p : VRingPool RqReq) (wrs : List RecvWR) :
    VRingPool RqReq × Int × Option (List RecvWR) :=
  match postRecvLoop p wrs with
  | (p', rc, rem) =>
    if rc = 0 then
      (if p'.hasDoorbell then p'.notify else p'.slowDoorbell, rc, none)
    else
      (p', rc, some rem)

/-! ### Completion queue (`virtio_rdma_create_cq` / `virtio_rdma_poll_cq`) -/

/-- The post-`vring_init_pool` loop of `virtio_rdma_create_cq` (lines
210–213): pop every freshly seeded free slot and publish it to the ring
so the backend can fill completions into it. The C code does not check
the pop for NULL; the free list is seeded with exactly `num_cqe` entries
so the pop always succeeds, and an impossible empty pop is modelled as a
no-op. -/
def createCqLoop : Nat → VRingPool CqReq → VRingPool CqReq
  | 0, p => p
  | n + 1, p =>
    match p.flistPop with
    | none => p
    | some (idx, p1) => createCqLoop n (p1.addOne idx (p1.table idx) cq_req_size)

/-- `virtio_rdma_create_cq` after a successful control-plane exchange
negotiating `num_cqe` completion entries: initialise the pool (all slots
free) and publish every slot to the backend. -/
def virtio_rdma_create_cq (num_cqe : Nat) : VRingPool CqReq :=
  createCqLoop num_cqe (VRingPool.init num_cqe cq_req_size cqReqZero false)

/-- The `while (i < num_entries)` loop of `virtio_rdma_poll_cq`: consume
one used descriptor, decode and translate its fields into a generic
completion, recycle the slot with `buf_entry->len`, repeat. -/
def pollCqLoop : Nat → VRingPool CqReq → List Wc → VRingPool CqReq × List Wc
  | 0, p, acc => (p, acc)
  | n + 1, p, acc =>
    match p.getOne with
    | none => (p, acc)
    | some (e, p1) =>
      let req := e.2.1
      let wc : Wc :=
        { wr_id := req.wr_id,
          status := to_ib_status req.status,
          opcode := to_ib_wc_opcode req.opcode,
          vendor_err := req.vendor_err,
          byte_len := req.byte_len,
          imm_data := req.imm_data,
          src_qp := req.src_qp,
          wc_flags := to_ib_wc_flags req.wc_flags,
          pkey_index := 0 }
      pollCqLoop n (p1.addOne e.1 req e.2.2) (acc ++ [wc])

/-- `virtio_rdma_poll_cq` under the completion queue's lock; returns the
pool and the filled completion list (the C return value is its length). -/
def virtio_rdma_poll_cq (p : VRingPool CqReq) (num_entries : Nat) :
    VRingPool CqReq × List Wc :=
  pollCqLoop num_entries p []

/-- Membership of the or-closure of a set of flag bits: `x` is a bitwise
or-combination of the given (power-of-two) bits exactly when or-ing the
full mask leaves the mask unchanged. -/
def isOrCombo (bits : List Nat) (x : Nat) : Prop :=
  x ||| bits.foldr (· ||| ·) 0 = bits.foldr (· ||| ·) 0

instance (bits : List Nat) (x : Nat) : Decidable (isOrCombo bits x) := by
  unfold isOrCombo
  infer_instance

/-! ### Concrete fixtures used by witnesses and counterexamples -/

/-- Application memory with a recognisable byte at each address. -/
def mem0 : Nat → Nat := fun a => a % 256

/-- Send pool of depth 1 with two negotiated scatter-gather slots. -/
def sqPool1 : VRingPool SqReq :=
  VRingPool.init 1 (sq_req_size + 2 * sge_size) sqReqZero true

/-- Send pool of depth 1 negotiated for at most 1 scatter-gather entry. -/
def sqPoolNarrow : VRingPool SqReq :=
  VRingPool.init 1 (sq_req_size + 1 * sge_size) sqReqZero true

/-- Receive pool of depth 1 with two negotiated scatter-gather slots. -/
def rqPool1 : VRingPool RqReq :=
  VRingPool.init 1 (rq_req_size + 2 * sge_size) rqReqZero true

/-- Plain send work request with no fragments. -/
def wrSend (id : Nat) : SendWR :=
  ⟨id, IBV_WR_SEND, 0, 0, 0, [], 0, 0, 0, 0, 0⟩

/-- Work request with an opcode the provider does not support (atomic
compare-and-swap). -/
def wrAtomic : SendWR :=
  ⟨7, IBV_WR_ATOMIC_CMP_AND_SWP, 0, 0, 0, [], 0, 0, 0, 0, 0⟩

/-- RDMA-write work request as submitted on an unreliable-datagram queue
pair, carrying both the datagram addressing triple and rdma fields. -/
def wrRdmaUd : SendWR :=
  ⟨9, IBV_WR_RDMA_WRITE, 0, 0, 0, [], 11, 22, 33, 44, 55⟩

/-- Inline send work request with two 4-byte fragments. -/
def wrInline : SendWR :=
  ⟨5, IBV_WR_SEND, IBV_SEND_INLINE, 0, 2, [⟨100, 4, 0⟩, ⟨200, 4, 0⟩],
   0, 0, 0, 0, 0⟩

/-- The header record `virtio_rdma_post_send` builds for `wrInline` in a
zeroed slot. -/
def wrInlineReq1 : SqReq := buildSqHeader sqReqZero wrInline

/-- Non-inline send work request with two fragments (one more than
`sqPoolNarrow` negotiated). -/
def wr2sge : SendWR :=
  ⟨6, IBV_WR_SEND, 0, 0, 2, [⟨100, 4, 1⟩, ⟨200, 4, 2⟩], 0, 0, 0, 0, 0⟩

/-- Plain receive work request with no fragments. -/
def rwrSimple : RecvWR := ⟨1, 0, []⟩

/-! ### Supporting lemmas -/

lemma drain_of_usedList_nil {α : Type} (p : VRingPool α) (h : p.usedList = []) :
    p.drain = p := by
  cases p
  simp only at h
  subst h
  simp [VRingPool.drain, VRingPool.drainLoop]

lemma applySqAddressing_error_cases (t : Nat) (req : SqReq) (wr : SendWR) (e : Int)
    (h : applySqAddressing t req wr = Except.error e) :
    e = -EOPNOTSUPP ∨ e = -EINVAL := by
  unfold applySqAddressing at h
  split_ifs at h <;> simp_all

lemma applySqAddressing_rc_send (req : SqReq) (wr : SendWR)
    (h : wr.opcode = IBV_WR_SEND ∨ wr.opcode = IBV_WR_SEND_WITH_IMM) :
    applySqAddressing IBV_QPT_RC req wr = Except.ok req := by
  rcases h with h | h <;>
    simp [applySqAddressing, h, IBV_QPT_RC, IBV_QPT_UD, IBV_WR_SEND,
      IBV_WR_SEND_WITH_IMM, IBV_WR_RDMA_READ, IBV_WR_RDMA_WRITE,
      IBV_WR_RDMA_WRITE_WITH_IMM]

lemma buildSqHeader_wr_id (old : SqReq) (wr : SendWR) :
    (buildSqHeader old wr).wr_id = wr.wr_id := rfl

lemma copy_inline_wr_id (mem : Nat → Nat) (req : SqReq) (wr : SendWR) :
    (copy_inline_data_to_wqe mem req wr).wr_id = req.wr_id := rfl

lemma applySqPayload_wr_id (mem : Nat → Nat) (req : SqReq) (wr : SendWR) :
    ((applySqPayload mem req wr).1).wr_id = req.wr_id := by
  unfold applySqPayload
  split <;> simp [copy_inline_wr_id]

lemma postSendLoop_cons_none (mem : Nat → Nat) (t : Nat) (p : VRingPool SqReq)
    (wr : SendWR) (rest : List SendWR) (hf : (p.drain).freeList = []) :
    postSendLoop mem t p (wr :: rest) = (p.drain, -ENOMEM, wr :: rest) := by
  simp only [postSendLoop, VRingPool.flistPop, hf]

lemma postSendLoop_cons_err (mem : Nat → Nat) (t : Nat) (p : VRingPool SqReq)
    (wr : SendWR) (rest : List SendWR) (i : Nat) (fr : List Nat) (e : Int)
    (hf : (p.drain).freeList = i :: fr)
    (ha : applySqAddressing t (buildSqHeader ((p.drain).table i) wr) wr
          = Except.error e) :
    postSendLoop mem t p (wr :: rest)
      = ({ p.drain with freeList := fr }, e, wr :: rest) := by
  simp only [postSendLoop, VRingPool.flistPop, hf, ha]

lemma postSendLoop_cons_ok (mem : Nat → Nat) (t : Nat) (p : VRingPool SqReq)
    (wr : SendWR) (rest : List SendWR) (i : Nat) (fr : List Nat) (req1 : SqReq)
    (hf : (p.drain).freeList = i :: fr)
    (ha : applySqAddressing t (buildSqHeader ((p.drain).table i) wr) wr
          = Except.ok req1) :
    postSendLoop mem t p (wr :: rest)
      = postSendLoop mem t
          (VRingPool.addOne { p.drain with freeList := fr } i
            (applySqPayload mem req1 wr).1
            (sq_req_size + (applySqPayload mem req1 wr).2)) rest := by
  simp only [postSendLoop, VRingPool.flistPop, hf, ha]

lemma postSendLoop_invariants (mem : Nat → Nat) (t : Nat) :
    ∀ (wrs : List SendWR) (p : VRingPool SqReq),
      ((postSendLoop mem t p wrs).2.1 = 0 ↔ (postSendLoop mem t p wrs).2.2 = []) ∧
      (postSendLoop mem t p wrs).2.2 <:+ wrs ∧
      (postSendLoop mem t p wrs).1.doorbellWrites = p.doorbellWrites ∧
      (postSendLoop mem t p wrs).1.slowDoorbells = p.slowDoorbells ∧
      (postSendLoop mem t p wrs).1.hasDoorbell = p.hasDoorbell := by
  intro wrs
  induction wrs with
  | nil =>
    intro p
    simp [postSendLoop, List.nil_suffix]
  | cons wr rest ih =>
    intro p
    rcases hf : (p.drain).freeList with _ | ⟨i, fr⟩
    · rw [postSendLoop_cons_none mem t p wr rest hf]
      refine ⟨by simp [ENOMEM], List.suffix_refl _, ?_, ?_, ?_⟩ <;>
        simp [VRingPool.drain]
    · rcases ha : applySqAddressing t (buildSqHeader ((p.drain).table i) wr) wr
        with e | req1
      · have he := applySqAddressing_error_cases _ _ _ _ ha
        rw [postSendLoop_cons_err mem t p wr rest i fr e hf ha]
        refine ⟨?_, List.suffix_refl _, ?_, ?_, ?_⟩
        · constructor
          · intro h0
            rcases he with he | he <;> rw [he] at h0 <;>
              simp [EOPNOTSUPP, EINVAL] at h0
          · intro h0
            simp at h0
        · simp [VRingPool.drain]
        · simp [VRingPool.drain]
        · simp [VRingPool.drain]
      · rw [postSendLoop_cons_ok mem t p wr rest i fr req1 hf ha]
        obtain ⟨ih1, ih2, ih3, ih4, ih5⟩ := ih _
        refine ⟨ih1, ih2.trans (List.suffix_cons wr rest), ?_, ?_, ?_⟩ <;>
          simp_all [VRingPool.addOne, VRingPool.drain]

lemma postRecvLoop_cons_none (p : VRingPool RqReq) (wr : RecvWR)
    (rest : List RecvWR) (hf : (p.drain).freeList = []) :
    postRecvLoop p (wr :: rest) = (p.drain, -ENOMEM, wr :: rest) := by
  simp only [postRecvLoop, VRingPool.flistPop, hf]

lemma postRecvLoop_cons_ok (p : VRingPool RqReq) (wr : RecvWR)
    (rest : List RecvWR) (i : Nat) (fr : List Nat)
    (hf : (p.drain).freeList = i :: fr) :
    postRecvLoop p (wr :: rest)
      = postRecvLoop
          (VRingPool.addOne { p.drain with freeList := fr } i
            (buildRqReq ((p.drain).table i) wr)
            (rq_req_size + sge_size * wr.num_sge)) rest := by
  simp only [postRecvLoop, VRingPool.flistPop, hf]

lemma postRecvLoop_invariants :
    ∀ (wrs : List RecvWR) (p : VRingPool RqReq),
      ((postRecvLoop p wrs).2.1 = 0 ↔ (postRecvLoop p wrs).2.2 = []) ∧
      (postRecvLoop p wrs).2.2 <:+ wrs ∧
      (postRecvLoop p wrs).1.doorbellWrites = p.doorbellWrites ∧
      (postRecvLoop p wrs).1.slowDoorbells = p.slowDoorbells ∧
      (postRecvLoop p wrs).1.hasDoorbell = p.hasDoorbell := by
  intro wrs
  induction wrs with
  | nil =>
    intro p
    simp [postRecvLoop, List.nil_suffix]
  | cons wr rest ih =>
    intro p
    rcases hf : (p.drain).freeList with _ | ⟨i, fr⟩
    · rw [postRecvLoop_cons_none p wr rest hf]
      refine ⟨by simp [ENOMEM], List.suffix_refl _, ?_, ?_, ?_⟩ <;>
        simp [VRingPool.drain]
    · rw [postRecvLoop_cons_ok p wr rest i fr hf]
      obtain ⟨ih1, ih2, ih3, ih4, ih5⟩ := ih _
      refine ⟨ih1, ih2.trans (List.suffix_cons wr rest), ?_, ?_, ?_⟩ <;>
        simp_all [VRingPool.addOne, VRingPool.drain]

lemma virtio_rdma_post_send_eq (mem : Nat → Nat) (t : Nat) (p : VRingPool SqReq)
    (wrs : List SendWR) :
    virtio_rdma_post_send mem t p wrs
      = if (postSendLoop mem t p wrs).2.1 = 0 then
          ((if (postSendLoop mem t p wrs).1.hasDoorbell
             then (postSendLoop mem t p wrs).1.notify
             else (postSendLoop mem t p wrs).1.slowDoorbell),
           (postSendLoop mem t p wrs).2.1, some (postSendLoop mem t p wrs).2.2)
        else
          ((postSendLoop mem t p wrs).1, (postSendLoop mem t p wrs).2.1,
           some (postSendLoop mem t p wrs).2.2) := by
  rcases hr : postSendLoop mem t p wrs with ⟨p1, rc, rem⟩
  by_cases h0 : rc = 0 <;> simp [virtio_rdma_post_send, hr, h0]

lemma virtio_rdma_post_recv_eq (p : VRingPool RqReq) (wrs : List RecvWR) :
    virtio_rdma_post_recv p wrs
      = if (postRecvLoop p wrs).2.1 = 0 then
          ((if (postRecvLoop p wrs).1.hasDoorbell
             then (postRecvLoop p wrs).1.notify
             else (postRecvLoop p wrs).1.slowDoorbell),
           (postRecvLoop p wrs).2.1, none)
        else
          ((postRecvLoop p wrs).1, (postRecvLoop p wrs).2.1,
           some (postRecvLoop p wrs).2.2) := by
  rcases hr : postRecvLoop p wrs with ⟨p1, rc, rem⟩
  by_cases h0 : rc = 0 <;> simp [virtio_rdma_post_recv, hr, h0]

lemma inline_fold (mem : Nat → Nat) :
    ∀ (l : List Sge) (b : List Nat) (n : Nat), n < 4294967296 →
      l.foldl (fun (acc : List Nat × Nat) s =>
          (acc.1 ++ sgeBytes mem s, (acc.2 + s.length) % 4294967296)) (b, n)
        = (b ++ (l.map (sgeBytes mem)).flatten,
           (n + (l.map Sge.length).sum) % 4294967296) := by
  intro l
  induction l with
  | nil =>
    intro b n hn
    simp [Nat.mod_eq_of_lt hn]
  | cons s l ih =>
    intro b n hn
    simp only [List.foldl_cons]
    rw [ih (b ++ sgeBytes mem s) ((n + s.length) % 4294967296)
      (Nat.mod_lt _ (by norm_num))]
    simp [List.append_assoc, Nat.mod_add_mod, Nat.add_assoc]

lemma createCqLoop_spec :
    ∀ (k : Nat) (p : VRingPool CqReq), p.freeList.length = k →
      (createCqLoop k p).freeList = [] ∧
      (createCqLoop k p).availRing.length = p.availRing.length + k ∧
      (createCqLoop k p).usedList = p.usedList := by
  intro k
  induction k with
  | zero =>
    intro p hp
    rw [List.length_eq_zero] at hp
    simp [createCqLoop, hp]
  | succ k ih =>
    intro p hp
    rcases hf : p.freeList with _ | ⟨i, fr⟩
    · rw [hf] at hp
      simp at hp
    · rw [hf] at hp
      simp only [List.length_cons, Nat.succ.injEq] at hp
      simp only [createCqLoop, VRingPool.flistPop, hf]
      obtain ⟨h1, h2, h3⟩ := ih (VRingPool.addOne { p with freeList := fr } i
        (({ p with freeList := fr } : VRingPool CqReq).table i) cq_req_size)
        (by simp [VRingPool.addOne, hp])
      refine ⟨h1, ?_, by simpa [VRingPool.addOne] using h3⟩
      rw [h2]
      simp [VRingPool.addOne]
      omega

lemma postSendLoop_exhaust (mem : Nat → Nat) :
    ∀ (wrs : List SendWR) (p : VRingPool SqReq),
      p.usedList = [] →
      (∀ wr ∈ wrs, wr.opcode = IBV_WR_SEND) →
      p.freeList.length < wrs.length →
      ∃ pub : List (Nat × SqReq × Nat),
        (postSendLoop mem IBV_QPT_RC p wrs).1.availRing = p.availRing ++ pub ∧
        pub.map (fun e => e.2.1.wr_id)
          = (wrs.take p.freeList.length).map SendWR.wr_id ∧
        (postSendLoop mem IBV_QPT_RC p wrs).2.1 = -ENOMEM ∧
        (postSendLoop mem IBV_QPT_RC p wrs).2.2 = wrs.drop p.freeList.length := by
  intro wrs
  induction wrs with
  | nil =>
    intro p _ _ hk
    simp at hk
  | cons wr rest ih =>
    intro p hu hv hk
    have hd : p.drain = p := drain_of_usedList_nil p hu
    rcases hf : p.freeList with _ | ⟨i, fr⟩
    · refine ⟨[], ?_⟩
      rw [postSendLoop_cons_none mem IBV_QPT_RC p wr rest (by rw [hd, hf]), hd]
      simp
    · have hop : wr.opcode = IBV_WR_SEND := hv wr (List.mem_cons_self wr rest)
      have ha : applySqAddressing IBV_QPT_RC
          (buildSqHeader ((p.drain).table i) wr) wr
          = Except.ok (buildSqHeader ((p.drain).table i) wr) :=
        applySqAddressing_rc_send _ wr (Or.inl hop)
      rw [postSendLoop_cons_ok mem IBV_QPT_RC p wr rest i fr _
        (by rw [hd, hf]) ha]
      set req1 := buildSqHeader ((p.drain).table i) wr with hreq1
      set p3 := VRingPool.addOne { p.drain with freeList := fr } i
        (applySqPayload mem req1 wr).1
        (sq_req_size + (applySqPayload mem req1 wr).2) with hp3
      have hu3 : p3.usedList = [] := by simp [hp3, VRingPool.addOne, hd, hu]
      have hfr3 : p3.freeList = fr := by simp [hp3, VRingPool.addOne]
      have hk3 : p3.freeList.length < rest.length := by
        rw [hfr3]
        rw [hf] at hk
        simpa using Nat.lt_of_succ_lt_succ hk
      obtain ⟨pub', e1, e2, e3, e4⟩ :=
        ih p3 hu3 (fun w hw => hv w (List.mem_cons_of_mem _ hw)) hk3
      refine ⟨(i, (applySqPayload mem req1 wr).1,
        sq_req_size + (applySqPayload mem req1 wr).2) :: pub', ?_, ?_, e3, ?_⟩
      · rw [e1]
        simp [hp3, VRingPool.addOne, hd]
      · simp only [List.length_cons, List.take_succ_cons, List.map_cons]
        rw [hfr3] at e2
        exact congrArg₂ _
          (by rw [applySqPayload_wr_id, hreq1, buildSqHeader_wr_id]) e2
      · rw [e4, hfr3]
        simp

/-! ### Claims -/

/-- C1: the claimed conservation invariant `free-count + posted-count +
consumer-held-count = negotiated depth` is broken by `virtio_rdma_post_send`
on exactly the early-exit paths the claim singles out: the
Unsupported (`-EOPNOTSUPP`) and InvalidArgument (`-EINVAL`) exits run after
an entry has been popped from the free list and return without pushing it
back or publishing it, so the entry is leaked. On a depth-1 pool, posting
one atomic work request on a reliable-connection queue pair (or any
request on an unsupported transport) leaves 0 accounted entries where the
claim demands 1. -/
theorem c1_pool_conservation_broken :
    sqPool1.accounted = sqPool1.depth ∧
    (virtio_rdma_post_send mem0 IBV_QPT_RC sqPool1 [wrAtomic]).2.1 = -EOPNOTSUPP ∧
    ((virtio_rdma_post_send mem0 IBV_QPT_RC sqPool1 [wrAtomic]).1).accounted + 1
      = sqPool1.depth ∧
    (virtio_rdma_post_send mem0 IBV_QPT_UC sqPool1 [wrSend 1]).2.1 = -EINVAL ∧
    ((virtio_rdma_post_send mem0 IBV_QPT_UC sqPool1 [wrSend 1]).1).accounted + 1
      = sqPool1.depth := by
  decide

set_option maxRecDepth 8192 in
/-- C2: every translation function is total with the single sentinel 255
(`(uint8_t)(-1)`) on every input outside its mapped cases, and 255
collides neither with any code of each target enumeration nor with any
bitwise-or combination of legitimate flag bits. -/
theorem c2_translation_sentinels :
    (∀ s < 256, s ∉ virtioWcStatusCodes → to_ib_status s = invalidSentinel) ∧
    invalidSentinel ∉ ibWcStatusCodes ∧
    (∀ o < 256, o ∉ virtioWcOpcodeCodes → to_ib_wc_opcode o = invalidSentinel) ∧
    invalidSentinel ∉ ibWcOpcodeCodes ∧
    (∀ o < 256, o ∉ supportedWrOpcodes → to_virtio_wr_opcode o = invalidSentinel) ∧
    invalidSentinel ∉ virtioWrOpcodeCodes ∧
    (∀ f < 256, f ∉ supportedSendFlags → to_virtio_send_flags f = invalidSentinel) ∧
    (∀ f < 256, isOrCombo virtioSendFlagBits f → f ≠ invalidSentinel) ∧
    (∀ f < 256, f ∉ virtioWcFlagCodes → to_ib_wc_flags f = invalidSentinel) ∧
    (∀ f < 256, isOrCombo ibWcFlagBits f → f ≠ invalidSentinel) := by
  refine ⟨?_, ?_, ?_, ?_, ?_, ?_, ?_, ?_, ?_, ?_⟩ <;> decide

/-- Witness for C2: unmapped inputs of each translation function at
concrete values — including the flag word `GRH ||| WITH_IMM = 3`, which is
a combination and therefore not a single mapped case — all yield the
sentinel. -/
theorem c2_translation_sentinels_witness :
    to_ib_status 200 = invalidSentinel ∧
    to_ib_wc_opcode 99 = invalidSentinel ∧
    to_virtio_wr_opcode 77 = invalidSentinel ∧
    to_virtio_send_flags 10 = invalidSentinel ∧
    to_ib_wc_flags 3 = invalidSentinel ∧
    3 ≠ invalidSentinel :=
  ⟨c2_translation_sentinels.1 200 (by decide) (by decide),
   c2_translation_sentinels.2.2.1 99 (by decide) (by decide),
   c2_translation_sentinels.2.2.2.2.1 77 (by decide) (by decide),
   c2_translation_sentinels.2.2.2.2.2.2.1 10 (by decide) (by decide),
   c2_translation_sentinels.2.2.2.2.2.2.2.2.1 3 (by decide) (by decide),
   c2_translation_sentinels.2.2.2.2.2.2.2.2.2 3 (by decide) (by decide)⟩

/-- C7: exhaustive round-trip over every supported generic work-request
opcode, send flag and completion status: translating to wire form (the
source's `to_virtio_wr_opcode` / `to_virtio_send_flags`, resp. the
spec-modelled `to_virtio_status`) and back (the spec-modelled inverses,
resp. the source's `to_ib_status`) is the identity. -/
theorem c7_translation_roundtrip :
    supportedWrOpcodes.map (fun o => from_virtio_wr_opcode (to_virtio_wr_opcode o))
      = supportedWrOpcodes ∧
    supportedSendFlags.map (fun f => from_virtio_send_flags (to_virtio_send_flags f))
      = supportedSendFlags ∧
    supportedIbStatuses.map (fun s => to_ib_status (to_virtio_status s))
      = supportedIbStatuses := by
  decide

/-- Counterexample to C4: an RDMA-write work request on an
unreliable-datagram queue pair is not rejected — `virtio_rdma_post_send`
returns 0 and publishes the record (with the datagram addressing triple),
where the claim demands an Unsupported/InvalidArgument failure for RDMA
opcodes on an unreliable-datagram queue pair. -/
theorem c4_ud_rdma_write_accepted :
    (virtio_rdma_post_send mem0 IBV_QPT_UD sqPool1 [wrRdmaUd]).2.1 = 0 ∧
    (virtio_rdma_post_send mem0 IBV_QPT_UD sqPool1 [wrRdmaUd]).2.2 = some [] ∧
    ((virtio_rdma_post_send mem0 IBV_QPT_UD sqPool1 [wrRdmaUd]).1).availRing.map
        (fun e => (e.2.1.opcode, e.2.1.ud_remote_qpn, e.2.1.ud_remote_qkey,
          e.2.1.ud_ah))
      = [(VIRTIO_IB_WR_RDMA_WRITE, 11, 22, 33)] := by
  decide

/-- C5: the published record length is not bounded by the pool's
negotiated entry size — the code never checks `wr->num_sge` against the
negotiated maximum (its own `TODO: more check` comment marks the gap). On
a pool negotiated for 1 scatter-gather descriptor, a request with 2
descriptors publishes a record of length header + 2 descriptors, which
exceeds the entry size. -/
theorem c5_record_length_overflow :
    sqPoolNarrow.entrySize = sq_req_size + 1 * sge_size ∧
    ((virtio_rdma_post_send mem0 IBV_QPT_RC sqPoolNarrow [wr2sge]).1).availRing.map
        (fun e => e.2.2)
      = [sq_req_size + 2 * sge_size] ∧
    sq_req_size + 2 * sge_size > sqPoolNarrow.entrySize := by
  decide

/-- Counterexample to C6: a batch that stops early (three sends into a
depth-1 pool) publishes one request to the ring but notifies the backend
zero times — the error paths jump past both doorbell mechanisms — where
the claim demands exactly one notification after every invocation. -/
theorem c6_failure_skips_notify :
    (virtio_rdma_post_send mem0 IBV_QPT_RC sqPool1
        [wrSend 1, wrSend 2, wrSend 3]).2.1 = -ENOMEM ∧
    ((virtio_rdma_post_send mem0 IBV_QPT_RC sqPool1
        [wrSend 1, wrSend 2, wrSend 3]).1).availRing.length = 1 ∧
    ((virtio_rdma_post_send mem0 IBV_QPT_RC sqPool1
        [wrSend 1, wrSend 2, wrSend 3]).1).notifyCount = 0 := by
  decide

/-- Counterexample to C9: immediately after creating a completion queue
of depth 16 the free list holds 0 entries, not 16 — `virtio_rdma_create_cq`
pops every seeded entry and publishes it to the ring for the backend. The
polling half of the claim does hold: `poll` with `maxEntries = 1` before
any backend activity returns 0 filled entries. -/
theorem c9_cq_freelist_not_seeded :
    (virtio_rdma_create_cq 16).freeCount = 0 ∧
    ¬ (virtio_rdma_create_cq 16).freeCount = 16 ∧
    (virtio_rdma_poll_cq (virtio_rdma_create_cq 16) 1).2.length = 0 := by
  decide

/-- C9 as amended: after creating a completion queue of depth `n` the
free list holds 0 entries — all `n` entries have been published to the
ring so the backend can fill completions — and a poll with
`maxEntries = 1` before any backend activity returns 0 filled entries. -/
theorem c9_create_cq_amended (n : Nat) :
    (virtio_rdma_create_cq n).freeCount = 0 ∧
    (virtio_rdma_create_cq n).availRing.length = n ∧
    (virtio_rdma_create_cq n).usedList = [] ∧
    (virtio_rdma_poll_cq (virtio_rdma_create_cq n) 1).2 = [] := by
  obtain ⟨h1, h2, h3⟩ := createCqLoop_spec n
    (VRingPool.init n cq_req_size cqReqZero false) (by simp [VRingPool.init])
  have h4 : (virtio_rdma_create_cq n).usedList = [] := by
    simpa [virtio_rdma_create_cq, VRingPool.init] using h3
  refine ⟨?_, ?_, h4, ?_⟩
  · simp [virtio_rdma_create_cq, VRingPool.freeCount] at h1 ⊢
    exact h1
  · simpa [virtio_rdma_create_cq, VRingPool.init] using h2
  · simp [virtio_rdma_poll_cq, pollCqLoop, VRingPool.getOne, h4]

/-- C3: when the free list is exhausted at some request of the batch (no
backend-returned descriptors to reclaim), `virtio_rdma_post_send` stops
there: it returns `-ENOMEM` (ResourceExhausted), sets the bad-request
out-parameter to exactly the first unprocessed request, and the earlier
requests of the batch remain published in the ring, in order. -/
theorem c3_exhaustion_partial_batch (mem : Nat → Nat) (p : VRingPool SqReq)
    (wrs : List SendWR) (h1 : p.usedList = [])
    (h2 : ∀ wr ∈ wrs, wr.opcode = IBV_WR_SEND)
    (h3 : p.freeList.length < wrs.length) :
    (virtio_rdma_post_send mem IBV_QPT_RC p wrs).2.1 = -ENOMEM ∧
    (virtio_rdma_post_send mem IBV_QPT_RC p wrs).2.2
      = some (wrs.drop p.freeList.length) ∧
    ∃ pub, (virtio_rdma_post_send mem IBV_QPT_RC p wrs).1.availRing
        = p.availRing ++ pub ∧
      pub.map (fun e => e.2.1.wr_id)
        = (wrs.take p.freeList.length).map SendWR.wr_id := by
  obtain ⟨pub, e1, e2, e3, e4⟩ := postSendLoop_exhaust mem wrs p h1 h2 h3
  have hne : (postSendLoop mem IBV_QPT_RC p wrs).2.1 ≠ 0 := by
    rw [e3]
    decide
  rw [virtio_rdma_post_send_eq, if_neg hne]
  exact ⟨e3, by rw [e4], pub, e1, e2⟩

/-- Witness for C3: posting 3 send requests into a depth-1 send pool
submits exactly 1 (its id is published), reports `-ENOMEM`, and returns
the 2nd request as the first unprocessed one. -/
theorem c3_exhaustion_partial_batch_witness :
    (virtio_rdma_post_send mem0 IBV_QPT_RC sqPool1
        [wrSend 1, wrSend 2, wrSend 3]).2.1 = -ENOMEM ∧
    (virtio_rdma_post_send mem0 IBV_QPT_RC sqPool1
        [wrSend 1, wrSend 2, wrSend 3]).2.2
      = some ([wrSend 1, wrSend 2, wrSend 3].drop sqPool1.freeList.length) ∧
    ∃ pub, (virtio_rdma_post_send mem0 IBV_QPT_RC sqPool1
        [wrSend 1, wrSend 2, wrSend 3]).1.availRing
        = sqPool1.availRing ++ pub ∧
      pub.map (fun e => e.2.1.wr_id)
        = ([wrSend 1, wrSend 2, wrSend 3].take sqPool1.freeList.length).map
            SendWR.wr_id :=
  c3_exhaustion_partial_batch mem0 sqPool1 [wrSend 1, wrSend 2, wrSend 3]
    (by decide) (by decide) (by decide)

/-- C4 as amended: transport-specific addressing in
`virtio_rdma_post_send` — an unreliable-datagram queue pair writes the
remote queue-pair number, remote key and address-handle id for every
opcode (it never rejects an opcode); a reliable-connection queue pair
writes remote address and key exactly for the RDMA-read/RDMA-write(-with-
immediate) opcodes and nothing extra for send(-with-immediate), and
rejects any other opcode with Unsupported; any other transport is
rejected with InvalidArgument; and each rejection aborts the whole
remaining batch immediately, before publishing, with the bad-request
out-parameter set to the failing request. -/
theorem c4_addressing_amended :
    (∀ (req : SqReq) (wr : SendWR),
      applySqAddressing IBV_QPT_UD req wr
        = Except.ok { req with ud_remote_qpn := wr.ud_remote_qpn,
                               ud_remote_qkey := wr.ud_remote_qkey,
                               ud_ah := wr.ud_ah }) ∧
    (∀ (req : SqReq) (wr : SendWR),
      (wr.opcode = IBV_WR_RDMA_READ ∨ wr.opcode = IBV_WR_RDMA_WRITE ∨
        wr.opcode = IBV_WR_RDMA_WRITE_WITH_IMM) →
      applySqAddressing IBV_QPT_RC req wr
        = Except.ok { req with rdma_remote_addr := wr.rdma_remote_addr,
                               rdma_rkey := wr.rdma_rkey }) ∧
    (∀ (req : SqReq) (wr : SendWR),
      (wr.opcode = IBV_WR_SEND ∨ wr.opcode = IBV_WR_SEND_WITH_IMM) →
      applySqAddressing IBV_QPT_RC req wr = Except.ok req) ∧
    (∀ (req : SqReq) (wr : SendWR), wr.opcode ∉ supportedWrOpcodes →
      applySqAddressing IBV_QPT_RC req wr = Except.error (-EOPNOTSUPP)) ∧
    (∀ (t : Nat) (req : SqReq) (wr : SendWR), t ≠ IBV_QPT_UD → t ≠ IBV_QPT_RC →
      applySqAddressing t req wr = Except.error (-EINVAL)) ∧
    (∀ (mem : Nat → Nat) (t : Nat) (p : VRingPool SqReq) (wr : SendWR)
        (rest : List SendWR) (i : Nat) (fr : List Nat) (e : Int),
      (p.drain).freeList = i :: fr →
      applySqAddressing t (buildSqHeader ((p.drain).table i) wr) wr
        = Except.error e →
      virtio_rdma_post_send mem t p (wr :: rest)
        = ({ p.drain with freeList := fr }, e, some (wr :: rest))) := by
  refine ⟨?_, ?_, ?_, ?_, ?_, ?_⟩
  · intro req wr
    simp [applySqAddressing]
  · intro req wr h
    rcases h with h | h | h <;>
      simp [applySqAddressing, h, IBV_QPT_RC, IBV_QPT_UD, IBV_WR_RDMA_READ,
        IBV_WR_RDMA_WRITE, IBV_WR_RDMA_WRITE_WITH_IMM]
  · intro req wr h
    exact applySqAddressing_rc_send req wr h
  · intro req wr h
    simp only [supportedWrOpcodes, IBV_WR_RDMA_WRITE, IBV_WR_RDMA_WRITE_WITH_IMM,
      IBV_WR_SEND, IBV_WR_SEND_WITH_IMM, IBV_WR_RDMA_READ, List.mem_cons,
      List.mem_singleton, List.not_mem_nil, or_false, not_or] at h
    obtain ⟨n0, n1, n2, n3, n4⟩ := h
    simp [applySqAddressing, IBV_QPT_RC, IBV_QPT_UD, IBV_WR_RDMA_READ,
      IBV_WR_RDMA_WRITE, IBV_WR_RDMA_WRITE_WITH_IMM, IBV_WR_SEND,
      IBV_WR_SEND_WITH_IMM, n0, n1, n2, n3, n4]
  · intro t req wr h1 h2
    simp [applySqAddressing, h1, h2]
  · intro mem t p wr rest i fr e hf ha
    have he := applySqAddressing_error_cases _ _ _ _ ha
    have hne : e ≠ 0 := by
      rcases he with he | he <;> subst he <;> decide
    rw [virtio_rdma_post_send_eq,
      postSendLoop_cons_err mem t p wr rest i fr e hf ha, if_neg hne]

/-- Witness for C4 as amended: the atomic opcode on a reliable-connection
queue pair is Unsupported; a send on an unreliable-connected transport is
InvalidArgument. -/
theorem c4_addressing_amended_witness :
    applySqAddressing IBV_QPT_RC sqReqZero wrAtomic = Except.error (-EOPNOTSUPP) ∧
    applySqAddressing IBV_QPT_UC sqReqZero (wrSend 1) = Except.error (-EINVAL) :=
  ⟨c4_addressing_amended.2.2.2.1 sqReqZero wrAtomic (by decide),
   c4_addressing_amended.2.2.2.2.1 IBV_QPT_UC sqReqZero (wrSend 1)
     (by decide) (by decide)⟩

/-- C6 as amended: `virtio_rdma_post_send` and `virtio_rdma_post_recv`
notify the backend exactly once — through the doorbell word when one was
negotiated, otherwise through the synchronous zero-length command — when
the whole batch is accepted (`rc = 0`), and zero times when the batch
stops early at a failing request (the error paths jump past the
notification). -/
theorem c6_notify_amended :
    (∀ (mem : Nat → Nat) (t : Nat) (p : VRingPool SqReq) (wrs : List SendWR),
      ((virtio_rdma_post_send mem t p wrs).2.1 = 0 →
        ((virtio_rdma_post_send mem t p wrs).1).notifyCount = p.notifyCount + 1 ∧
        (p.hasDoorbell = true →
          ((virtio_rdma_post_send mem t p wrs).1).doorbellWrites
            = p.doorbellWrites + 1) ∧
        (p.hasDoorbell = false →
          ((virtio_rdma_post_send mem t p wrs).1).slowDoorbells
            = p.slowDoorbells + 1)) ∧
      ((virtio_rdma_post_send mem t p wrs).2.1 ≠ 0 →
        ((virtio_rdma_post_send mem t p wrs).1).notifyCount = p.notifyCount)) ∧
    (∀ (p : VRingPool RqReq) (wrs : List RecvWR),
      ((virtio_rdma_post_recv p wrs).2.1 = 0 →
        ((virtio_rdma_post_recv p wrs).1).notifyCount = p.notifyCount + 1 ∧
        (p.hasDoorbell = true →
          ((virtio_rdma_post_recv p wrs).1).doorbellWrites
            = p.doorbellWrites + 1) ∧
        (p.hasDoorbell = false →
          ((virtio_rdma_post_recv p wrs).1).slowDoorbells
            = p.slowDoorbells + 1)) ∧
      ((virtio_rdma_post_recv p wrs).2.1 ≠ 0 →
        ((virtio_rdma_post_recv p wrs).1).notifyCount = p.notifyCount)) := by
  constructor
  · intro mem t p wrs
    obtain ⟨_, _, i3, i4, i5⟩ := postSendLoop_invariants mem t wrs p
    rw [virtio_rdma_post_send_eq]
    by_cases h0 : (postSendLoop mem t p wrs).2.1 = 0
    · rw [if_pos h0]
      constructor
      · intro _
        cases hdb : p.hasDoorbell <;>
          simp [i5, hdb, VRingPool.notify, VRingPool.slowDoorbell,
            VRingPool.notifyCount, i3, i4] <;>
          omega
      · intro hne
        simp [h0] at hne
    · rw [if_neg h0]
      constructor
      · intro h
        exact absurd h h0
      · intro _
        simp [VRingPool.notifyCount, i3, i4]
  · intro p wrs
    obtain ⟨_, _, i3, i4, i5⟩ := postRecvLoop_invariants wrs p
    rw [virtio_rdma_post_recv_eq]
    by_cases h0 : (postRecvLoop p wrs).2.1 = 0
    · rw [if_pos h0]
      constructor
      · intro _
        cases hdb : p.hasDoorbell <;>
          simp [i5, hdb, VRingPool.notify, VRingPool.slowDoorbell,
            VRingPool.notifyCount, i3, i4] <;>
          omega
      · intro hne
        simp [h0] at hne
    · rw [if_neg h0]
      constructor
      · intro h
        exact absurd h h0
      · intro _
        simp [VRingPool.notifyCount, i3, i4]

/-- Witness for C6 as amended: an accepted single-request batch on a pool
with a negotiated doorbell issues exactly one notification. -/
theorem c6_notify_amended_witness :
    ((virtio_rdma_post_send mem0 IBV_QPT_RC sqPool1 [wrSend 1]).1).notifyCount
      = sqPool1.notifyCount + 1 :=
  ((c6_notify_amended.1 mem0 IBV_QPT_RC sqPool1 [wrSend 1]).1 (by decide)).1

/-- C8: a work request with the inline flag set, accepted by the
addressing step out of a pool with a free slot and no pending reclaims,
is published as a record whose inline region is the fragments' bytes
concatenated in list order, whose inline length is the sum of the
fragments' byte counts (the `u32` accumulator does not wrap below
`2^32`), whose scatter-gather array is untouched (no descriptors
emitted), and whose published length is the header alone. -/
theorem c8_inline_payload (mem : Nat → Nat) (t : Nat) (p : VRingPool SqReq)
    (wr : SendWR) (i : Nat) (fr : List Nat) (req1 : SqReq)
    (hu : p.usedList = []) (hf : p.freeList = i :: fr)
    (ha : applySqAddressing t (buildSqHeader (p.table i) wr) wr = Except.ok req1)
    (hinl : wr.send_flags &&& IBV_SEND_INLINE ≠ 0)
    (hsum : ((wr.sg_list.take wr.num_sge).map Sge.length).sum < 4294967296) :
    (postSendLoop mem t p [wr]).2.1 = 0 ∧
    (postSendLoop mem t p [wr]).1.availRing
      = p.availRing ++
        [(i, { req1 with
                inline_len := ((wr.sg_list.take wr.num_sge).map Sge.length).sum,
                inline_data :=
                  ((wr.sg_list.take wr.num_sge).map (sgeBytes mem)).flatten },
          sq_req_size)] := by
  have hd := drain_of_usedList_nil p hu
  have hpay : applySqPayload mem req1 wr
      = ({ req1 with
            inline_len := ((wr.sg_list.take wr.num_sge).map Sge.length).sum,
            inline_data :=
              ((wr.sg_list.take wr.num_sge).map (sgeBytes mem)).flatten }, 0) := by
    unfold applySqPayload
    rw [if_pos hinl]
    unfold copy_inline_data_to_wqe
    simp only []
    rw [inline_fold mem (wr.sg_list.take wr.num_sge) [] 0 (by norm_num)]
    simp only [List.nil_append, Nat.zero_add]
    rw [Nat.mod_eq_of_lt hsum]
  rw [postSendLoop_cons_ok mem t p wr [] i fr req1 (by rw [hd]; exact hf)
    (by rw [hd]; exact ha), hpay]
  simp [postSendLoop, VRingPool.addOne, hd]

/-- Witness for C8: an inline send with two 4-byte fragments publishes a
record with inline length 8, inline bytes read from the two fragments in
order, untouched scatter-gather array, and header-only length. -/
theorem c8_inline_payload_witness :
    (((wrInline.sg_list.take wrInline.num_sge).map Sge.length).sum = 8) ∧
    ((postSendLoop mem0 IBV_QPT_RC sqPool1 [wrInline]).2.1 = 0 ∧
      (postSendLoop mem0 IBV_QPT_RC sqPool1 [wrInline]).1.availRing
        = sqPool1.availRing ++
          [(0, { wrInlineReq1 with
                  inline_len :=
                    ((wrInline.sg_list.take wrInline.num_sge).map Sge.length).sum,
                  inline_data :=
                    ((wrInline.sg_list.take wrInline.num_sge).map
                      (sgeBytes mem0)).flatten },
            sq_req_size)]) :=
  ⟨by decide,
   c8_inline_payload mem0 IBV_QPT_RC sqPool1 wrInline 0 [] wrInlineReq1
     (by decide) (by decide) (by rfl) (by decide) (by decide)⟩

/-- C10: `virtio_rdma_post_send` writes the bad-request out-parameter on
every invocation — the empty remainder (the C null pointer) on full
success, the suffix starting at the first unprocessed request on failure —
whereas `virtio_rdma_post_recv` writes it only on failure and leaves it
unmodified (`none`) when every request is accepted. -/
theorem c10_bad_wr_frame :
    (∀ (mem : Nat → Nat) (t : Nat) (p : VRingPool SqReq) (wrs : List SendWR),
      ∃ rem, (virtio_rdma_post_send mem t p wrs).2.2 = some rem ∧
        ((virtio_rdma_post_send mem t p wrs).2.1 = 0 ↔ rem = []) ∧
        rem <:+ wrs) ∧
    (∀ (p : VRingPool RqReq) (wrs : List RecvWR),
      ((virtio_rdma_post_recv p wrs).2.1 = 0 →
        (virtio_rdma_post_recv p wrs).2.2 = none) ∧
      ((virtio_rdma_post_recv p wrs).2.1 ≠ 0 →
        ∃ rem, (virtio_rdma_post_recv p wrs).2.2 = some rem ∧ rem ≠ [] ∧
          rem <:+ wrs)) := by
  constructor
  · intro mem t p wrs
    obtain ⟨i1, i2, _⟩ := postSendLoop_invariants mem t wrs p
    rw [virtio_rdma_post_send_eq]
    by_cases h0 : (postSendLoop mem t p wrs).2.1 = 0
    · rw [if_pos h0]
      exact ⟨(postSendLoop mem t p wrs).2.2, rfl, by simpa using i1, i2⟩
    · rw [if_neg h0]
      exact ⟨(postSendLoop mem t p wrs).2.2, rfl, by simpa using i1, i2⟩
  · intro p wrs
    obtain ⟨i1, i2, _⟩ := postRecvLoop_invariants wrs p
    rw [virtio_rdma_post_recv_eq]
    by_cases h0 : (postRecvLoop p wrs).2.1 = 0
    · rw [if_pos h0]
      refine ⟨fun _ => rfl, fun hne => absurd ?_ hne⟩
      simp [h0]
    · rw [if_neg h0]
      refine ⟨fun h => absurd h h0, fun _ => ⟨(postRecvLoop p wrs).2.2, rfl, ?_, i2⟩⟩
      intro hnil
      exact h0 (i1.mpr hnil)

/-- Witness for C10: an accepted receive batch leaves the out-parameter
untouched, and an accepted send batch writes the empty remainder. -/
theorem c10_bad_wr_frame_witness :
    (virtio_rdma_post_recv rqPool1 [rwrSimple]).2.2 = none ∧
    ∃ rem, (virtio_rdma_post_send mem0 IBV_QPT_RC sqPool1 [wrSend 1]).2.2
        = some rem ∧
      ((virtio_rdma_post_send mem0 IBV_QPT_RC sqPool1 [wrSend 1]).2.1 = 0 ↔
        rem = []) ∧
      rem <:+ [wrSend 1] :=
  ⟨(c10_bad_wr_frame.2 rqPool1 [rwrSimple]).1 (by decide),
   c10_bad_wr_frame.1 mem0 IBV_QPT_RC sqPool1 [wrSend 1]⟩

end VirtioRdma
